import Mathlib

/-!
Shallow embedding of the entity-canonicalization and proximity-ranked retrieval
engine of the document-network explorer: the alias registry, the
`/api/relationships` and `/api/actor/:name/relationships` endpoints of
`api_server.ts`, the hop-distance recomputation script `fix_hop_distances.ts`,
and the exact-duplicate removal script `dedupe_triples.ts`.

The SQLite tables are modelled as in-memory lists (`rdf_triples` as a list of
`Triple`, `entity_aliases` as an association list); SQL clauses are modelled by
the corresponding list operations (WHERE as filter, ORDER BY as a stable sort,
LIMIT as take, GROUP BY as grouping by key).  JavaScript `Map`/`Set` values are
modelled as functions into `Option` and lists with membership.  JavaScript
numbers holding distances are modelled as `Option Nat` with `none` playing the
role of `Infinity`.  The text of a `triple_tags` column is modelled by the
outcome of `JSON.parse` on it: either a list of tag strings or an unparseable
blob.  SQLite BINARY text comparison is modelled by bytewise lexicographic
comparison on the character list of the string.
-/

namespace DocNet

/-- The parse outcome of the JSON text stored in a `triple_tags` column:
either a JSON array of tag strings, or text on which `JSON.parse` throws. -/
inductive TagPayload where
  | arr (tags : List String)
  | malformed
deriving DecidableEq

/-- `JSON.parse` on a tag payload: the tag list on success, `none` on throw. -/
def parseTags : TagPayload → Option (List String)
  | TagPayload.arr ts => some ts
  | TagPayload.malformed => none

/-- A row of the `rdf_triples` table. `timestamp` and `location` are nullable,
`triple_tags` is the nullable JSON text column (modelled by its parse
outcome). -/
structure Triple where
  id : Nat
  doc_id : String
  timestamp : Option String
  actor : String
  action : String
  target : String
  location : Option String
  triple_tags : Option TagPayload
deriving DecidableEq

/-- The `entity_aliases` table as (original_name, canonical_name) rows. -/
abbrev AliasTable : Type := List (String × String)

/-- One-hop alias resolution, as built by `canonicalMap` in
`fix_hop_distances.ts` and by the `LEFT JOIN entity_aliases ... COALESCE`
pattern in `api_server.ts`: the canonical_name of the first row whose
original_name matches, else the name itself. -/
def resolve (t : AliasTable) (n : String) : String :=
  match List.find? (fun p => decide (p.1 = n)) t with
  | some p => p.2
  | none => n

/-- A row produced by the relationship SELECTs of `api_server.ts`: the triple
with actor and target replaced by `COALESCE(ea.canonical_name, rt.actor)`. -/
structure Row where
  id : Nat
  doc_id : String
  timestamp : Option String
  actor : String
  action : String
  target : String
  location : Option String
  triple_tags : Option TagPayload
deriving DecidableEq

/-- The SELECT of `api_server.ts` applied to one `rdf_triples` row: keep every
column, resolving actor and target through `entity_aliases`. -/
def canonRow (t : AliasTable) (f : Triple) : Row :=
  { id := f.id, doc_id := f.doc_id, timestamp := f.timestamp,
    actor := resolve t f.actor, action := f.action,
    target := resolve t f.target, location := f.location,
    triple_tags := f.triple_tags }

/-- Bytewise lexicographic strict comparison on character lists, modelling
SQLite BINARY collation on TEXT values. -/
def strLtB : List Char → List Char → Bool
  | [], [] => false
  | [], _ :: _ => true
  | _ :: _, [] => false
  | c :: a, d :: b => if c < d then true else if d < c then false else strLtB a b

/-- Non-strict bytewise comparison of strings. -/
def strLeB (a b : String) : Bool := !(strLtB b.data a.data)

/-- The WHERE clause `rt.timestamp IS NULL OR rt.timestamp >= '1970-01-01'`
shared by both relationship endpoints of `api_server.ts`. -/
def dateOk (ts : Option String) : Bool :=
  match ts with
  | none => true
  | some s => strLeB "1970-01-01" s

/-- SQLite ascending TEXT order on a nullable column: NULL sorts first. -/
def tsLe : Option String → Option String → Bool
  | none, _ => true
  | some _, none => false
  | some a, some b => strLeB a b

/-- `ORDER BY rt.timestamp` over an in-memory snapshot, as a stable sort. -/
def sortByTimestamp (l : List Row) : List Row :=
  List.mergeSort l (fun a b => tsLe a.timestamp b.timestamp)

/-- One entry of `tag_clusters.json` (the fields the server reads for
filtering: the cluster id and its tag list). -/
structure TagCluster where
  id : Int
  tags : List String
deriving DecidableEq

/-- The recognized query parameters of the relationship endpoints.  `limit` is
the `parseInt` outcome of the raw parameter (`none` = NaN / absent);
`clusters` is the comma-split parameter with each piece converted by `Number`
(`none` = absent parameter, inner `none` = not an integer).  `includeUndated`
travels in the HTTP query string but is never read by the server. -/
structure QueryParams where
  limit : Option Int
  clusters : Option (List (Option Int))
  includeUndated : Bool
deriving DecidableEq

/-- The immutable database snapshot a request reads. -/
structure Snapshot where
  triples : List Triple
  aliases : AliasTable

/-- `validateLimit` of `api_server.ts`: NaN or below 1 falls back to 500,
otherwise clamp into 1..20000. -/
def validateLimit (limit : Option Int) : Nat :=
  match limit with
  | none => 500
  | some p => if p < 1 then 500 else (min 20000 (max 1 p)).toNat

/-- `validateClusterIds` of `api_server.ts`: drop NaN and negative entries,
keep at most 50 ids. -/
def validateClusterIds (clusters : Option (List (Option Int))) : List Int :=
  match clusters with
  | none => []
  | some l => ((l.filterMap id).filter (fun n => decide (0 ≤ n))).take 50

/-- The set of tags belonging to the selected clusters (union over the cluster
ids that exist in `tag_clusters.json`); membership in this list models
membership in the `selectedTags` Set. -/
def selectedTags (tagClusters : List TagCluster) (clusterIds : List Int) : List String :=
  clusterIds.foldl
    (fun acc cid =>
      match List.find? (fun c => decide (c.id = cid)) tagClusters with
      | some c => acc ++ c.tags
      | none => acc)
    []

/-- The tag-cluster filter callback of `api_server.ts`: with no selected tags
every fact passes; otherwise parse the payload and test for intersection,
treating a parse failure (the catch branch) as filtered out. -/
def tagFilterPass (selTags : List String) (r : Row) : Bool :=
  if selTags.isEmpty then true
  else
    match r.triple_tags with
    | none => false
    | some p =>
      match parseTags p with
      | some ts => ts.any (fun tag => decide (tag ∈ selTags))
      | none => false

/-- The database-level row ceiling of the bounded relationships query. -/
def MAX_DB_LIMIT : Nat := 50000

/-- The `allRelationships` query of `/api/relationships`: canonicalized rows
passing the timestamp cutoff, ordered by timestamp, at most 50000 of them. -/
def allRelationships (snap : Snapshot) : List Row :=
  (sortByTimestamp
    ((snap.triples.filter (fun f => dateOk f.timestamp)).map (canonRow snap.aliases))).take
    MAX_DB_LIMIT

/-- `filteredRelationships` of `/api/relationships`: the tag-cluster filter. -/
def filteredRelationships (tagClusters : List TagCluster) (snap : Snapshot)
    (clusterIds : List Int) : List Row :=
  (allRelationships snap).filter (tagFilterPass (selectedTags tagClusters clusterIds))

/-- A JavaScript `Map<string, Set<string>>` adjacency structure. -/
abbrev Adjacency : Type := String → Option (List String)

/-- `if (!adjacency.has(k)) adjacency.set(k, new Set())`. -/
def ensureKey (adj : Adjacency) (k : String) : Adjacency :=
  fun x => if decide (x = k) then some ((adj k).getD []) else adj x

/-- `adjacency.get(k)!.add(v)` (insert into the neighbor set of `k`). -/
def addNeighbor (adj : Adjacency) (k v : String) : Adjacency :=
  fun x => if decide (x = k) then some (((adj k).getD []).insert v) else adj x

/-- The adjacency build loop of `/api/relationships`: for every filtered
relationship ensure both endpoints have an entry and add each endpoint to the
other's neighbor set. -/
def buildAdjacency (rels : List Row) : Adjacency :=
  rels.foldl
    (fun adj rel =>
      addNeighbor (addNeighbor (ensureKey (ensureKey adj rel.actor) rel.target)
        rel.actor rel.target) rel.target rel.actor)
    (fun _ => none)

/-- The `distances` Map of the BFS. -/
abbrev DistMap : Type := String → Option Nat

/-- The BFS loop of `/api/relationships`: pop the queue front, and for every
neighbor without a distance assign parent distance + 1 and push it.  The
distance map doubles as the visited set.  `fuel` bounds the number of loop
iterations; every call supplies more fuel than nodes can ever be pushed, so
the loop always drains the queue exactly as the source does. -/
def bfsLoop (adj : Adjacency) : Nat → List String → DistMap → DistMap
  | 0, _, dist => dist
  | _ + 1, [], dist => dist
  | fuel + 1, current :: rest, dist =>
    let currentDistance := (dist current).getD 0
    let neighbors := (adj current).getD []
    let step := neighbors.foldl
      (fun (p : DistMap × List String) nb =>
        if (p.1 nb).isSome then p
        else ((fun x => if decide (x = nb) then some (currentDistance + 1) else p.1 x),
          p.2 ++ [nb]))
      (dist, [])
    bfsLoop adj fuel (rest ++ step.2) step.1

/-- The configured principal entity of the dataset. -/
def epsteinName : String := "Jeffrey Epstein"

/-- The per-query BFS of `/api/relationships`: if the principal has an
adjacency entry, run BFS from it at distance 0; otherwise the distance map
stays empty. -/
def bfsDistances (rels : List Row) : DistMap :=
  let adjacency := buildAdjacency rels
  if (adjacency epsteinName).isSome then
    bfsLoop adjacency (2 * rels.length + 2) [epsteinName]
      (fun x => if decide (x = epsteinName) then some 0 else none)
  else fun _ => none

/-- `Math.min` over distances where a missing entry reads as `Infinity`
(`distances.get(x) ?? Infinity`): `none` models `Infinity`. -/
def jsMin : Option Nat → Option Nat → Option Nat
  | some x, some y => some (min x y)
  | some x, none => some x
  | none, some y => some y
  | none, none => none

/-- The ascending comparison on distance scores realized by the comparator
`(a, b) => a._distance - b._distance` under a stable sort, with `Infinity`
sorting after every finite value. -/
def distLe : Option Nat → Option Nat → Bool
  | some x, some y => decide (x ≤ y)
  | some _, none => true
  | none, some _ => false
  | none, none => true

/-- `relationshipsWithDistance`: annotate every filtered relationship with
`_distance`, the minimum of the two endpoint distances. -/
def relationshipsWithDistance (tagClusters : List TagCluster) (snap : Snapshot)
    (clusterIds : List Int) : List (Row × Option Nat) :=
  let dist := bfsDistances (filteredRelationships tagClusters snap clusterIds)
  (filteredRelationships tagClusters snap clusterIds).map
    (fun rel => (rel, jsMin (dist rel.actor) (dist rel.target)))

/-- The `sort` call on `relationshipsWithDistance` (JavaScript `Array.sort` is
a stable sort). -/
def sortedRelationships (tagClusters : List TagCluster) (snap : Snapshot)
    (clusterIds : List Int) : List (Row × Option Nat) :=
  List.mergeSort (relationshipsWithDistance tagClusters snap clusterIds)
    (fun a b => distLe a.2 b.2)

/-- `prunedRelationships`: keep the first `limit` sorted relationships. -/
def prunedRelationships (tagClusters : List TagCluster) (snap : Snapshot)
    (clusterIds : List Int) (limit : Nat) : List (Row × Option Nat) :=
  (sortedRelationships tagClusters snap clusterIds).take limit

/-- A relationship object as serialized to the client. -/
structure OutRel where
  id : Nat
  doc_id : String
  timestamp : Option String
  actor : String
  action : String
  target : String
  location : Option String
  tags : List String
deriving DecidableEq

/-- The response mapping `({ _distance, triple_tags, ...rel }) => ({ ...rel,
tags: triple_tags ? JSON.parse(triple_tags) : [] })`.  The `JSON.parse` here
is not wrapped in a try/catch, so an unparseable payload throws; the throw is
modelled as the error the surrounding handler turns into a 500 response. -/
def convertRow (r : Row) : Except String OutRel :=
  match r.triple_tags with
  | none =>
    Except.ok
      { id := r.id, doc_id := r.doc_id, timestamp := r.timestamp,
        actor := r.actor, action := r.action, target := r.target,
        location := r.location, tags := [] }
  | some p =>
    match parseTags p with
    | some ts =>
      Except.ok
        { id := r.id, doc_id := r.doc_id, timestamp := r.timestamp,
          actor := r.actor, action := r.action, target := r.target,
          location := r.location, tags := ts }
    | none => Except.error "An internal error occurred"

/-- Map a fallible conversion over a list, stopping at the first error (a
thrown exception aborts the whole `.map`). -/
def mapE (f : α → Except ε β) : List α → Except ε (List β)
  | [] => Except.ok []
  | a :: l =>
    match f a with
    | Except.error e => Except.error e
    | Except.ok b =>
      match mapE f l with
      | Except.error e => Except.error e
      | Except.ok m => Except.ok (b :: m)

/-- The `GET /api/relationships` handler: validate the limit and cluster list,
run the filter / BFS / rank / prune pipeline and serialize the pruned rows.
`Except.error` models the 500 response of the catch-all handler. -/
def relationshipsEndpoint (tagClusters : List TagCluster) (snap : Snapshot)
    (q : QueryParams) : Except String (List OutRel) :=
  mapE convertRow
    ((prunedRelationships tagClusters snap (validateClusterIds q.clusters)
      (validateLimit q.limit)).map Prod.fst)

/-- The pre-filter row count of a bounded relationships query (the length of
`allRelationships`). -/
def countBeforeFilter (snap : Snapshot) : Nat := (allRelationships snap).length

/-- The post-filter, pre-truncation row count of a bounded relationships query
(the length of `filteredRelationships`). -/
def countBeforeTruncation (tagClusters : List TagCluster) (snap : Snapshot)
    (clusterIds : List Int) : Nat :=
  (filteredRelationships tagClusters snap clusterIds).length

/-- The `aliasQuery` UNION of `/api/actor/:name/relationships`: every
original_name whose canonical_name is `name`, every canonical_name whose
original_name is `name`, and `name` itself (UNION removes duplicates). -/
def aliasUnionNames (t : AliasTable) (name : String) : List String :=
  ((t.filter (fun p => decide (p.2 = name))).map (fun p => p.1) ++
    (t.filter (fun p => decide (p.1 = name))).map (fun p => p.2) ++ [name]).dedup

/-- The SELECT of the actor endpoint: canonicalized rows of the triples whose
raw actor or raw target is IN the expanded name list and which pass the
timestamp cutoff, ordered by timestamp. -/
def actorBaseRows (snap : Snapshot) (allNames : List String) : List Row :=
  sortByTimestamp
    ((snap.triples.filter
      (fun f => (decide (f.actor ∈ allNames) || decide (f.target ∈ allNames)) &&
        dateOk f.timestamp)).map (canonRow snap.aliases))

/-- `filteredRelationships` of the actor endpoint: the same tag-cluster filter
applied to the actor-scoped rows. -/
def actorFilteredRelationships (tagClusters : List TagCluster) (snap : Snapshot)
    (name : String) (clusterIds : List Int) : List Row :=
  (actorBaseRows snap (aliasUnionNames snap.aliases name)).filter
    (tagFilterPass (selectedTags tagClusters clusterIds))

/-- The `GET /api/actor/:name/relationships` handler: reject an empty or
overlong name, otherwise filter and serialize (no distance pruning). -/
def actorEndpoint (tagClusters : List TagCluster) (snap : Snapshot) (name : String)
    (q : QueryParams) : Except String (List OutRel) :=
  if decide (name.length = 0) || decide (200 < name.length) then
    Except.error "Invalid actor name"
  else
    mapE convertRow
      (actorFilteredRelationships tagClusters snap name (validateClusterIds q.clusters))

/-- Modelled from the spec: the full alias-equivalence set of a name — every
original name whose canonical name equals `resolve name`, plus `resolve name`
itself.  Stated only to compare the specified expansion with the one the code
computes (`aliasUnionNames`). -/
def aliasEquivSet (t : AliasTable) (n : String) : List String :=
  (t.filter (fun p => decide (p.2 = resolve t n))).map (fun p => p.1) ++ [resolve t n]

/-- The per-fact relevance key a serialized fact of the bounded query was
ranked by: the minimum BFS distance of its two (canonical) endpoints, missing
entries reading as `Infinity`. -/
def factRelevanceKey (tagClusters : List TagCluster) (snap : Snapshot)
    (clusterIds : List Int) (actor target : String) : Option Nat :=
  jsMin (bfsDistances (filteredRelationships tagClusters snap clusterIds) actor)
    (bfsDistances (filteredRelationships tagClusters snap clusterIds) target)

/-- The distinct entity names occurring in `rdf_triples` as actor or target
(step 1 of `fix_hop_distances.ts`), from the distinct (actor, target) pairs. -/
def allEntities (pairs : List (String × String)) : List String :=
  (pairs.map Prod.fst ++ pairs.map Prod.snd).dedup

/-- The distinct canonical names (step 2 of `fix_hop_distances.ts`). -/
def canonicalNamesFix (t : AliasTable) (pairs : List (String × String)) : List String :=
  ((allEntities pairs).map (resolve t)).dedup

/-- The graph build of `fix_hop_distances.ts` (step 4): undirected adjacency
over canonical endpoint names. -/
def buildAdjacencyFix (t : AliasTable) (pairs : List (String × String)) : Adjacency :=
  pairs.foldl
    (fun adj rel =>
      let ca := resolve t rel.1
      let ct := resolve t rel.2
      addNeighbor (addNeighbor (ensureKey (ensureKey adj ca) ct) ca ct) ct ca)
    (fun _ => none)

/-- The BFS loop of `fix_hop_distances.ts`, which carries an explicit visited
set and a queue of (name, distance) entries.  `fuel` is as in `bfsLoop`. -/
def bfsLoopFix (adj : Adjacency) :
    Nat → List (String × Nat) → (String → Bool) → DistMap → DistMap
  | 0, _, _, dist => dist
  | _ + 1, [], _, dist => dist
  | fuel + 1, current :: rest, visited, dist =>
    match adj current.1 with
    | none => bfsLoopFix adj fuel rest visited dist
    | some neighbors =>
      let step := neighbors.foldl
        (fun (st : (String → Bool) × DistMap × List (String × Nat)) nb =>
          if st.1 nb then st
          else ((fun x => if decide (x = nb) then true else st.1 x),
            (fun x => if decide (x = nb) then some (current.2 + 1) else st.2.1 x),
            st.2.2 ++ [(nb, current.2 + 1)]))
        (visited, dist, [])
      bfsLoopFix adj fuel (rest ++ step.2.2) step.1 step.2.1

/-- The sentinel distance for disconnected entities. -/
def DISCONNECTED_HOP_DISTANCE : Nat := 1000

/-- `canonicalMap.get(PRINCIPAL) || PRINCIPAL`: the canonical form of the
principal when it occurs in the triples, the raw name otherwise. -/
def principalCanonicalFix (t : AliasTable) (pairs : List (String × String)) : String :=
  if decide ("Jeffrey Epstein" ∈ allEntities pairs) then resolve t "Jeffrey Epstein"
  else "Jeffrey Epstein"

/-- The outcome of the distance recomputation: the final distance map and
whether the principal was found in the graph (the branch that otherwise prints
the explicit "Principal not found in graph" warning). -/
structure HopResult where
  hopDistances : DistMap
  principalFound : Bool

/-- Steps 4–6 of `fix_hop_distances.ts`: BFS from the canonical principal if
it has an adjacency entry (else warn and leave the map empty), then assign the
sentinel 1000 to every canonical name the BFS did not reach. -/
def hopDistancesFix (t : AliasTable) (pairs : List (String × String)) : HopResult :=
  let adjacencyList := buildAdjacencyFix t pairs
  let principalCanonical := principalCanonicalFix t pairs
  let base : DistMap :=
    if (adjacencyList principalCanonical).isSome then
      bfsLoopFix adjacencyList (2 * pairs.length + 2) [(principalCanonical, 0)]
        (fun x => decide (x = principalCanonical))
        (fun x => if decide (x = principalCanonical) then some 0 else none)
    else fun _ => none
  { hopDistances := fun n =>
      match base n with
      | some d => some d
      | none =>
        if decide (n ∈ canonicalNamesFix t pairs) then some DISCONNECTED_HOP_DISTANCE
        else none,
    principalFound := (adjacencyList principalCanonical).isSome }

/-- The grouping key of `dedupe_triples.ts`: the six identifying columns with
their raw nullable values.  SQLite resolves the bare GROUP BY identifiers
`timestamp` and `location` to the raw `rdf_triples` columns — the
`COALESCE(...) as timestamp` output aliases of the SELECT apply only in ORDER
BY — and GROUP BY places NULLs in the same group, which equality on `Option`
models directly. -/
def rawKey (f : Triple) :
    String × Option String × String × String × String × Option String :=
  (f.doc_id, f.timestamp, f.actor, f.action, f.target, f.location)

/-- The ids of the facts sharing a grouping key. -/
def groupIds (l : List Triple)
    (k : String × Option String × String × String × String × Option String) :
    List Nat :=
  (l.filter (fun g => decide (rawKey g = k))).map (fun g => g.id)

/-- The effect of `dedupe_triples.ts` on the fact store: group rows by the
raw six-column key and delete every id of a group except the smallest, so a
row survives exactly when its id is minimal in its group. -/
def dedupeTriples (l : List Triple) : List Triple :=
  l.filter (fun f => (groupIds l (rawKey f)).all (fun j => decide (f.id ≤ j)))

/-! ### Helper lemmas about the embedding -/

theorem mapE_ok_forall₂ {α β ε : Type} {f : α → Except ε β} {l : List α} {m : List β}
    (h : mapE f l = Except.ok m) : List.Forall₂ (fun a b => f a = Except.ok b) l m := by
  induction l generalizing m with
  | nil =>
    simp only [mapE, Except.ok.injEq] at h
    subst h
    exact List.Forall₂.nil
  | cons a l ih =>
    simp only [mapE] at h
    cases hf : f a with
    | error e => rw [hf] at h; cases h
    | ok b =>
      rw [hf] at h
      cases hm : mapE f l with
      | error e => rw [hm] at h; cases h
      | ok m' =>
        rw [hm] at h
        cases h
        exact List.Forall₂.cons hf (ih hm)

theorem mapE_ok_of_forall {α β ε : Type} {f : α → Except ε β} {l : List α}
    (h : ∀ a ∈ l, ∃ b, f a = Except.ok b) : ∃ m, mapE f l = Except.ok m := by
  induction l with
  | nil => exact ⟨[], rfl⟩
  | cons a l ih =>
    obtain ⟨b, hb⟩ := h a (List.mem_cons_self a l)
    obtain ⟨m, hm⟩ := ih (fun x hx => h x (List.mem_cons_of_mem a hx))
    exact ⟨b :: m, by simp [mapE, hb, hm]⟩

theorem forall₂_mem_right {α β : Type} {R : α → β → Prop} {l : List α} {m : List β}
    (h : List.Forall₂ R l m) : ∀ b ∈ m, ∃ a ∈ l, R a b := by
  induction h with
  | nil => simp
  | cons hR _ ih =>
    intro b hb
    rcases List.mem_cons.1 hb with rfl | hb
    · exact ⟨_, List.mem_cons_self _ _, hR⟩
    · rcases ih b hb with ⟨a, ha, hab⟩
      exact ⟨a, List.mem_cons_of_mem _ ha, hab⟩

theorem pairwise_of_forall₂ {α β : Type} {R : α → β → Prop} {P : α → α → Prop}
    {Q : β → β → Prop} {l : List α} {m : List β}
    (hPQ : ∀ a b a' b', R a a' → R b b' → P a b → Q a' b')
    (h : List.Forall₂ R l m) (hp : List.Pairwise P l) : List.Pairwise Q m := by
  induction h with
  | nil => exact List.Pairwise.nil
  | cons hR htail ih =>
    rcases List.pairwise_cons.1 hp with ⟨h1, h2⟩
    refine List.Pairwise.cons ?_ (ih h2)
    intro b' hb'
    rcases forall₂_mem_right htail b' hb' with ⟨b, hb, hRb⟩
    exact hPQ _ _ _ _ hR hRb (h1 b hb)

theorem convertRow_ok {r : Row} {o : OutRel} (h : convertRow r = Except.ok o) :
    o.id = r.id ∧ o.timestamp = r.timestamp ∧ o.actor = r.actor ∧ o.target = r.target := by
  unfold convertRow at h
  split at h
  · cases h; simp
  · split at h
    · cases h; simp
    · cases h

theorem distLe_trans (a b c : Option Nat) (hab : distLe a b = true)
    (hbc : distLe b c = true) : distLe a c = true := by
  cases a <;> cases b <;> cases c <;> simp_all [distLe]
  omega

theorem distLe_total (a b : Option Nat) : (distLe a b || distLe b a) = true := by
  cases a <;> cases b <;> simp [distLe, Nat.le_total]

theorem distLe_refl (a : Option Nat) : distLe a a = true := by
  cases a <;> simp [distLe]

theorem mem_sorted_iff {tagClusters : List TagCluster} {snap : Snapshot}
    {clusterIds : List Int} {p : Row × Option Nat} :
    p ∈ sortedRelationships tagClusters snap clusterIds ↔
      p ∈ relationshipsWithDistance tagClusters snap clusterIds := by
  unfold sortedRelationships
  exact List.mem_mergeSort

theorem mem_pruned {tagClusters : List TagCluster} {snap : Snapshot}
    {clusterIds : List Int} {limit : Nat} {p : Row × Option Nat}
    (h : p ∈ prunedRelationships tagClusters snap clusterIds limit) :
    p ∈ relationshipsWithDistance tagClusters snap clusterIds :=
  mem_sorted_iff.1 (List.mem_of_mem_take h)

theorem mem_withDistance {tagClusters : List TagCluster} {snap : Snapshot}
    {clusterIds : List Int} {p : Row × Option Nat}
    (h : p ∈ relationshipsWithDistance tagClusters snap clusterIds) :
    p.1 ∈ filteredRelationships tagClusters snap clusterIds ∧
      p.2 = factRelevanceKey tagClusters snap clusterIds p.1.actor p.1.target := by
  unfold relationshipsWithDistance at h
  rcases List.mem_map.1 h with ⟨rel, hrel, rfl⟩
  exact ⟨hrel, rfl⟩

theorem mem_allRelationships_dateOk {snap : Snapshot} {r : Row}
    (h : r ∈ allRelationships snap) : dateOk r.timestamp = true := by
  unfold allRelationships sortByTimestamp at h
  rcases List.mem_map.1 (List.mem_mergeSort.1 (List.mem_of_mem_take h)) with ⟨f, hf, rfl⟩
  simpa [canonRow] using (List.mem_filter.1 hf).2

theorem mem_actorBaseRows_dateOk {snap : Snapshot} {allNames : List String} {r : Row}
    (h : r ∈ actorBaseRows snap allNames) : dateOk r.timestamp = true := by
  unfold actorBaseRows sortByTimestamp at h
  rcases List.mem_map.1 (List.mem_mergeSort.1 h) with ⟨f, hf, rfl⟩
  have := (List.mem_filter.1 hf).2
  simp only [Bool.and_eq_true] at this
  simpa [canonRow] using this.2

end DocNet

namespace DocNet

/-! ### Concrete data used by witnesses and counterexamples -/

/-- A fact incident to the principal, with no tags and no timestamp. -/
def tJE : Triple :=
  { id := 1, doc_id := "d1", timestamp := none, actor := "Jeffrey Epstein",
    action := "met", target := "A", location := none, triple_tags := none }

/-- Its serialized form. -/
def outJE : OutRel :=
  { id := 1, doc_id := "d1", timestamp := none, actor := "Jeffrey Epstein",
    action := "met", target := "A", location := none, tags := [] }

/-- A one-fact store with an empty alias table. -/
def snapJE : Snapshot := { triples := [tJE], aliases := [] }

/-- An alias table with a two-hop chain A → B → C. -/
def chainTable : AliasTable := [("A", "B"), ("B", "C")]

/-- A chain-free alias table: the only canonical name B refers to itself. -/
def chainFreeTable : AliasTable := [("A", "B"), ("B", "B")]

/-- A pair list that does not mention the principal. -/
def noPrincipalPairs : List (String × String) := [("A", "B")]

/-- Exact duplicate facts differing only in id. -/
def dupA : Triple :=
  { id := 1, doc_id := "d", timestamp := none, actor := "A", action := "met",
    target := "B", location := none, triple_tags := none }

/-- Exact duplicate of `dupA` with a higher id. -/
def dupB : Triple :=
  { id := 2, doc_id := "d", timestamp := none, actor := "A", action := "met",
    target := "B", location := none, triple_tags := none }

/-- A fact whose timestamp is the empty string. -/
def tsEmptyFact : Triple :=
  { id := 1, doc_id := "d", timestamp := some "", actor := "A", action := "met",
    target := "B", location := none, triple_tags := none }

/-- A fact identical to `tsEmptyFact` except that its timestamp is NULL. -/
def tsNullFact : Triple :=
  { id := 2, doc_id := "d", timestamp := none, actor := "A", action := "met",
    target := "B", location := none, triple_tags := none }

/-! ### C3 -/

/-- C3 (counterexample): on an alias table holding the chain A → B → C the
single-hop `resolve` is not idempotent: resolving A gives B, but resolving the
result again gives C. -/
theorem resolve_chain_not_idempotent :
    resolve chainTable (resolve chainTable "A") ≠ resolve chainTable "A" := by
  decide

/-- C3 (amended): `resolve` is total — a name with no mapping row resolves to
itself via the single one-hop lookup — for every state of the alias table, and
it is idempotent for every chain-free table state, i.e. whenever every
canonical_name value of the table resolves to itself. -/
theorem resolve_total_and_idempotent_chain_free (t : AliasTable)
    (h : ∀ p ∈ t, resolve t p.2 = p.2) :
    (∀ n, List.find? (fun p => decide (p.1 = n)) t = none → resolve t n = n) ∧
    (∀ n, resolve t (resolve t n) = resolve t n) := by
  constructor
  · intro n hn
    unfold resolve
    rw [hn]
  · intro n
    cases hf : List.find? (fun p => decide (p.1 = n)) t with
    | none =>
      have hn : resolve t n = n := by unfold resolve; rw [hf]
      rw [hn]
      exact hn
    | some p =>
      have hp : resolve t n = p.2 := by unfold resolve; rw [hf]
      rw [hp]
      exact h p (List.mem_of_find?_eq_some hf)

/-- C3 (witness): the chain-free table [("A","B"), ("B","B")] satisfies the
hypothesis, and resolution of "A" through it is idempotent. -/
theorem resolve_total_and_idempotent_chain_free_witness :
    (∀ p ∈ chainFreeTable, resolve chainFreeTable p.2 = p.2) ∧
    resolve chainFreeTable (resolve chainFreeTable "A") = resolve chainFreeTable "A" :=
  ⟨by decide, (resolve_total_and_idempotent_chain_free chainFreeTable (by decide)).2 "A"⟩

/-! ### C6 -/

/-- C6: when the (canonicalized) principal has no entry in the adjacency map,
the recomputation reports the principal as not found (the explicit warning
branch), assigns every canonical entity the disconnected sentinel 1000, and
gives no entity distance 0. -/
theorem principal_absent_all_sentinel (t : AliasTable) (pairs : List (String × String))
    (h : (buildAdjacencyFix t pairs (principalCanonicalFix t pairs)).isSome = false) :
    (hopDistancesFix t pairs).principalFound = false ∧
    (∀ c ∈ canonicalNamesFix t pairs,
      (hopDistancesFix t pairs).hopDistances c = some DISCONNECTED_HOP_DISTANCE) ∧
    (∀ n, (hopDistancesFix t pairs).hopDistances n ≠ some 0) := by
  refine ⟨by simp [hopDistancesFix, h], ?_, ?_⟩
  · intro c hc
    simp [hopDistancesFix, h, hc]
  · intro n
    simp only [hopDistancesFix, h]
    by_cases hn : n ∈ canonicalNamesFix t pairs
    · simp [hn, DISCONNECTED_HOP_DISTANCE]
    · simp [hn]

/-- C6 (witness): over the single edge A – B with an empty alias table the
principal is absent, A gets the sentinel, and no name has distance 0. -/
theorem principal_absent_all_sentinel_witness :
    ((buildAdjacencyFix [] noPrincipalPairs
      (principalCanonicalFix [] noPrincipalPairs)).isSome = false) ∧
    (hopDistancesFix [] noPrincipalPairs).principalFound = false ∧
    (hopDistancesFix [] noPrincipalPairs).hopDistances "A" =
      some DISCONNECTED_HOP_DISTANCE ∧
    (hopDistancesFix [] noPrincipalPairs).hopDistances "Jeffrey Epstein" ≠ some 0 :=
  ⟨by decide,
    (principal_absent_all_sentinel [] noPrincipalPairs (by decide)).1,
    (principal_absent_all_sentinel [] noPrincipalPairs (by decide)).2.1 "A" (by decide),
    (principal_absent_all_sentinel [] noPrincipalPairs (by decide)).2.2 "Jeffrey Epstein"⟩

/-! ### C9 -/

/-- C9: for a store with pairwise distinct ids, after dedupe no two surviving
facts share the identical (doc_id, timestamp, actor, action, target, location)
tuple, and within each duplicate set exactly the fact with the lowest id
survives: a fact survives if its id is lowest in its group, and every
survivor is the lowest id of its group. -/
theorem dedupe_raw_tuple_lowest_id (l : List Triple)
    (hid : (l.map (fun f => f.id)).Nodup) :
    (∀ f ∈ dedupeTriples l, ∀ g ∈ dedupeTriples l, rawKey f = rawKey g → f = g) ∧
    (∀ f ∈ l, (∀ g ∈ l, rawKey g = rawKey f → f.id ≤ g.id) → f ∈ dedupeTriples l) ∧
    (∀ f ∈ dedupeTriples l, f ∈ l ∧ ∀ g ∈ l, rawKey g = rawKey f → f.id ≤ g.id) := by
  have surv_min : ∀ f ∈ dedupeTriples l,
      f ∈ l ∧ ∀ g ∈ l, rawKey g = rawKey f → f.id ≤ g.id := by
    intro f hf
    have hm := List.mem_filter.1 hf
    refine ⟨hm.1, ?_⟩
    intro g hg hkey
    have hall := List.all_eq_true.1 hm.2
    have hmem : g.id ∈ groupIds l (rawKey f) := by
      unfold groupIds
      exact List.mem_map.2 ⟨g, List.mem_filter.2 ⟨hg, by simp [hkey]⟩, rfl⟩
    simpa using hall _ hmem
  refine ⟨?_, ?_, surv_min⟩
  · intro f hf g hg hkey
    have h1 := (surv_min f hf).2 g (surv_min g hg).1 hkey.symm
    have h2 := (surv_min g hg).2 f (surv_min f hf).1 hkey
    exact List.inj_on_of_nodup_map hid (surv_min f hf).1 (surv_min g hg).1
      (Nat.le_antisymm h1 h2)
  · intro f hf hmin
    refine List.mem_filter.2 ⟨hf, List.all_eq_true.2 ?_⟩
    intro j hj
    unfold groupIds at hj
    rcases List.mem_map.1 hj with ⟨g, hg, rfl⟩
    have hgmem := List.mem_filter.1 hg
    have hkey : rawKey g = rawKey f := of_decide_eq_true hgmem.2
    simpa using hmin g hgmem.1 hkey

/-- C9 (witness): the two exact duplicates [dupA, dupB] have distinct ids and
collapse to exactly [dupA] (the lowest id); the empty-string-timestamp and
NULL-timestamp pair forms no duplicate group, so both facts survive; and the
tuple uniqueness of survivors holds on the duplicate pair. -/
theorem dedupe_raw_tuple_lowest_id_witness :
    (([dupA, dupB].map (fun f => f.id)).Nodup ∧
      dedupeTriples [dupA, dupB] = [dupA] ∧
      dedupeTriples [tsEmptyFact, tsNullFact] = [tsEmptyFact, tsNullFact]) ∧
    (∀ f ∈ dedupeTriples [dupA, dupB], ∀ g ∈ dedupeTriples [dupA, dupB],
      rawKey f = rawKey g → f = g) :=
  ⟨by decide, (dedupe_raw_tuple_lowest_id [dupA, dupB] (by decide)).1⟩

/-! ### C5 -/

/-- C5 (counterexample): a query with limit 0 over a one-fact store is not
rejected: it runs the full pipeline and returns the fact (the invalid limit
silently became the default 500). -/
theorem limit_zero_not_rejected :
    relationshipsEndpoint [] snapJE
      { limit := some 0, clusters := none, includeUndated := true } =
      Except.ok [outJE] := by
  simp +decide [relationshipsEndpoint, prunedRelationships, sortedRelationships,
    relationshipsWithDistance, filteredRelationships, allRelationships, sortByTimestamp,
    List.mergeSort, List.merge, snapJE, tJE, validateClusterIds, validateLimit,
    selectedTags, tagFilterPass, canonRow, resolve, dateOk, tsLe, strLeB, strLtB,
    MAX_DB_LIMIT, bfsDistances, buildAdjacency, ensureKey, addNeighbor, bfsLoop,
    epsteinName, jsMin, distLe, mapE, convertRow, parseTags, outJE]

/-- C5 (amended): a missing, non-numeric or below-1 limit parameter is not
rejected; `validateLimit` replaces it by the default 500 and the query runs
exactly as if limit=500 had been requested. -/
theorem limit_invalid_defaults_to_500 (tagClusters : List TagCluster) (snap : Snapshot)
    (q : QueryParams) (h : q.limit = none ∨ ∃ k, q.limit = some k ∧ k < 1) :
    validateLimit q.limit = 500 ∧
    relationshipsEndpoint tagClusters snap q =
      relationshipsEndpoint tagClusters snap
        { limit := some 500, clusters := q.clusters, includeUndated := q.includeUndated } := by
  have hv : validateLimit q.limit = 500 := by
    rcases h with h | ⟨k, hk, hlt⟩
    · rw [h]; rfl
    · rw [hk]; simp [validateLimit, hlt]
  refine ⟨hv, ?_⟩
  have h500 : validateLimit (some 500) = 500 := by decide
  simp only [relationshipsEndpoint, hv, h500]

/-- C5 (witness of the amended claim): limit 0 is a below-1 limit, and the
endpoint answers the limit-0 query exactly as the limit-500 query. -/
theorem limit_invalid_defaults_to_500_witness :
    validateLimit (QueryParams.mk (some 0) none true).limit = 500 ∧
    relationshipsEndpoint [] snapJE (QueryParams.mk (some 0) none true) =
      relationshipsEndpoint [] snapJE
        { limit := some 500, clusters := (QueryParams.mk (some 0) none true).clusters,
          includeUndated := (QueryParams.mk (some 0) none true).includeUndated } :=
  limit_invalid_defaults_to_500 [] snapJE (QueryParams.mk (some 0) none true)
    (Or.inr ⟨0, rfl, by decide⟩)

/-! ### C1 -/

/-- A second fact one hop further from the principal. -/
def tAB : Triple :=
  { id := 2, doc_id := "d2", timestamp := none, actor := "A", action := "met",
    target := "B", location := none, triple_tags := none }

/-- A two-fact store: principal – A and A – B. -/
def snapTwo : Snapshot := { triples := [tJE, tAB], aliases := [] }

/-- A query requesting a single fact and no cluster filter. -/
def qLim1 : QueryParams := { limit := some 1, clusters := none, includeUndated := true }

/-- C1: whenever the bounded relationships query answers, the returned fact
list is ordered ascending by the per-fact relevance key — the minimum BFS
distance of its two canonical endpoints, taken from the per-query distance
map — and its length is at most the validated result limit (only the first
`limit` ranked facts are kept). -/
theorem relationships_sorted_and_truncated (tagClusters : List TagCluster)
    (snap : Snapshot) (q : QueryParams) (l : List OutRel)
    (h : relationshipsEndpoint tagClusters snap q = Except.ok l) :
    l.length ≤ validateLimit q.limit ∧
    l.Pairwise (fun a b =>
      distLe
        (factRelevanceKey tagClusters snap (validateClusterIds q.clusters) a.actor a.target)
        (factRelevanceKey tagClusters snap (validateClusterIds q.clusters) b.actor b.target) =
        true) := by
  unfold relationshipsEndpoint at h
  have h2 := mapE_ok_forall₂ h
  constructor
  · have hlen := h2.length_eq
    rw [List.length_map] at hlen
    rw [← hlen]
    unfold prunedRelationships
    exact List.length_take_le _ _
  · have hsorted : (sortedRelationships tagClusters snap
        (validateClusterIds q.clusters)).Pairwise (fun a b => distLe a.2 b.2 = true) := by
      unfold sortedRelationships
      exact List.sorted_mergeSort (fun a b c => distLe_trans a.2 b.2 c.2)
        (fun a b => distLe_total a.2 b.2) _
    have hpruned : (prunedRelationships tagClusters snap (validateClusterIds q.clusters)
        (validateLimit q.limit)).Pairwise (fun a b => distLe a.2 b.2 = true) :=
      List.Pairwise.sublist (List.take_sublist _ _) hsorted
    have hkeyed : (prunedRelationships tagClusters snap (validateClusterIds q.clusters)
        (validateLimit q.limit)).Pairwise (fun a b =>
          distLe
            (factRelevanceKey tagClusters snap (validateClusterIds q.clusters)
              a.1.actor a.1.target)
            (factRelevanceKey tagClusters snap (validateClusterIds q.clusters)
              b.1.actor b.1.target) = true) := by
      refine hpruned.imp_of_mem ?_
      intro a b ha hb hab
      rw [← (mem_withDistance (mem_pruned ha)).2, ← (mem_withDistance (mem_pruned hb)).2]
      exact hab
    have hmap : ((prunedRelationships tagClusters snap (validateClusterIds q.clusters)
        (validateLimit q.limit)).map Prod.fst).Pairwise (fun r r' =>
          distLe
            (factRelevanceKey tagClusters snap (validateClusterIds q.clusters)
              r.actor r.target)
            (factRelevanceKey tagClusters snap (validateClusterIds q.clusters)
              r'.actor r'.target) = true) := List.pairwise_map.2 hkeyed
    refine pairwise_of_forall₂ ?_ h2 hmap
    intro r r' o o' hro hro' hpr
    obtain ⟨_, _, ha, ht⟩ := convertRow_ok hro
    obtain ⟨_, _, ha', ht'⟩ := convertRow_ok hro'
    rw [ha, ht, ha', ht']
    exact hpr

/-- C1 (witness): over the store [principal–A, A–B] with limit 1 the endpoint
returns exactly the distance-0 fact, one fact long and trivially ordered. -/
theorem relationships_sorted_and_truncated_witness :
    relationshipsEndpoint [] snapTwo qLim1 = Except.ok [outJE] ∧
    ([outJE].length ≤ validateLimit qLim1.limit ∧
      [outJE].Pairwise (fun a b =>
        distLe
          (factRelevanceKey [] snapTwo (validateClusterIds qLim1.clusters) a.actor a.target)
          (factRelevanceKey [] snapTwo (validateClusterIds qLim1.clusters) b.actor b.target) =
          true)) :=
  ⟨by
    simp +decide [relationshipsEndpoint, prunedRelationships, sortedRelationships,
      relationshipsWithDistance, filteredRelationships, allRelationships, sortByTimestamp,
      List.mergeSort, List.merge, snapTwo, tJE, tAB, qLim1, validateClusterIds,
      validateLimit, selectedTags, tagFilterPass, canonRow, resolve, dateOk, tsLe, strLeB,
      strLtB, MAX_DB_LIMIT, bfsDistances, buildAdjacency, ensureKey, addNeighbor, bfsLoop,
      epsteinName, jsMin, distLe, mapE, convertRow, parseTags, outJE],
    relationships_sorted_and_truncated [] snapTwo qLim1 [outJE] (by
      simp +decide [relationshipsEndpoint, prunedRelationships, sortedRelationships,
        relationshipsWithDistance, filteredRelationships, allRelationships, sortByTimestamp,
        List.mergeSort, List.merge, snapTwo, tJE, tAB, qLim1, validateClusterIds,
        validateLimit, selectedTags, tagFilterPass, canonRow, resolve, dateOk, tsLe, strLeB,
        strLtB, MAX_DB_LIMIT, bfsDistances, buildAdjacency, ensureKey, addNeighbor, bfsLoop,
        epsteinName, jsMin, distLe, mapE, convertRow, parseTags, outJE])⟩

/-! ### C7 -/

/-- A fact between two entities disconnected from the principal. -/
def tCD : Triple :=
  { id := 3, doc_id := "d3", timestamp := none, actor := "C", action := "met",
    target := "D", location := none, triple_tags := none }

/-- Another disconnected fact, tied with `tCD` on the relevance key. -/
def tEF : Triple :=
  { id := 4, doc_id := "d4", timestamp := none, actor := "E", action := "met",
    target := "F", location := none, triple_tags := none }

/-- A store of two facts with equal (infinite) relevance keys. -/
def snapTie : Snapshot := { triples := [tCD, tEF], aliases := [] }

/-- C7: the relevance pipeline is deterministic — identical cluster table,
snapshot and query give identical output — and ties in the relevance key are
broken stably by the deterministic secondary key of position in the
timestamp-ordered input: any two annotated facts with equal distance keys
appearing in input order also appear in that order after sorting. -/
theorem relevance_pipeline_deterministic_stable :
    (∀ (tc tc' : List TagCluster) (snap snap' : Snapshot) (q q' : QueryParams),
      tc = tc' → snap = snap' → q = q' →
      relationshipsEndpoint tc snap q = relationshipsEndpoint tc' snap' q') ∧
    (∀ (tc : List TagCluster) (snap : Snapshot) (cl : List Int)
      (x y : Row × Option Nat), x.2 = y.2 →
      List.Sublist [x, y] (relationshipsWithDistance tc snap cl) →
      List.Sublist [x, y] (sortedRelationships tc snap cl)) := by
  constructor
  · intro tc tc' snap snap' q q' h1 h2 h3
    rw [h1, h2, h3]
  · intro tc snap cl x y hxy hsub
    unfold sortedRelationships
    refine List.sublist_mergeSort (fun a b c => distLe_trans a.2 b.2 c.2)
      (fun a b => distLe_total a.2 b.2) ?_ hsub
    refine List.pairwise_cons.2 ⟨?_, List.pairwise_singleton _ _⟩
    intro b hb
    rcases List.mem_singleton.1 hb with rfl
    rw [hxy]
    exact distLe_refl _

/-- C7 (witness): two facts tied at the infinite key stay in input order after
sorting, and a repeated identical invocation gives an identical response. -/
theorem relevance_pipeline_deterministic_stable_witness :
    relationshipsEndpoint [] snapTie qLim1 = relationshipsEndpoint [] snapTie qLim1 ∧
    List.Sublist [(canonRow [] tCD, (none : Option Nat)), (canonRow [] tEF, none)]
      (sortedRelationships [] snapTie []) :=
  ⟨relevance_pipeline_deterministic_stable.1 [] [] snapTie snapTie qLim1 qLim1 rfl rfl rfl,
    relevance_pipeline_deterministic_stable.2 [] snapTie []
      (canonRow [] tCD, none) (canonRow [] tEF, none) rfl (by
        have hw : relationshipsWithDistance [] snapTie [] =
            [(canonRow [] tCD, (none : Option Nat)), (canonRow [] tEF, none)] := by
          simp +decide [relationshipsWithDistance, filteredRelationships, allRelationships,
            sortByTimestamp, List.mergeSort, List.merge, snapTie, tCD, tEF, selectedTags,
            tagFilterPass, canonRow, resolve, dateOk, tsLe, strLeB, strLtB, MAX_DB_LIMIT,
            bfsDistances, buildAdjacency, ensureKey, addNeighbor, bfsLoop, epsteinName,
            jsMin]
        rw [hw])⟩

/-! ### C10 -/

/-- C10: both relationship endpoints ignore the `includeUndated` flag
entirely; every fact they ever return passes the hidden epoch cutoff, whose
predicate accepts a NULL timestamp unconditionally and accepts a non-null
timestamp exactly when it is not bytewise earlier than "1970-01-01" — so facts
dated before the epoch are silently excluded and undated facts always pass. -/
theorem hidden_epoch_cutoff :
    (∀ (tc : List TagCluster) (snap : Snapshot) (q : QueryParams) (b : Bool),
      relationshipsEndpoint tc snap
        { limit := q.limit, clusters := q.clusters, includeUndated := b } =
        relationshipsEndpoint tc snap q ∧
      ∀ name, actorEndpoint tc snap name
        { limit := q.limit, clusters := q.clusters, includeUndated := b } =
        actorEndpoint tc snap name q) ∧
    (∀ tc snap q l, relationshipsEndpoint tc snap q = Except.ok l →
      ∀ o ∈ l, dateOk o.timestamp = true) ∧
    (∀ tc snap name q l, actorEndpoint tc snap name q = Except.ok l →
      ∀ o ∈ l, dateOk o.timestamp = true) ∧
    dateOk none = true ∧
    (∀ s, dateOk (some s) = strLeB "1970-01-01" s) := by
  refine ⟨?_, ?_, ?_, rfl, fun s => rfl⟩
  · intro tc snap q b
    exact ⟨rfl, fun name => rfl⟩
  · intro tc snap q l h o ho
    unfold relationshipsEndpoint at h
    have h2 := mapE_ok_forall₂ h
    rcases forall₂_mem_right h2 o ho with ⟨r, hr, hro⟩
    rcases List.mem_map.1 hr with ⟨p, hp, rfl⟩
    have hdate : dateOk p.1.timestamp = true :=
      mem_allRelationships_dateOk
        (List.mem_of_mem_filter (mem_withDistance (mem_pruned hp)).1)
    obtain ⟨_, hts, _, _⟩ := convertRow_ok hro
    rw [hts]
    exact hdate
  · intro tc snap name q l h o ho
    unfold actorEndpoint at h
    split at h
    · cases h
    · have h2 := mapE_ok_forall₂ h
      rcases forall₂_mem_right h2 o ho with ⟨r, hr, hro⟩
      unfold actorFilteredRelationships at hr
      have hdate : dateOk r.timestamp = true :=
        mem_actorBaseRows_dateOk (List.mem_of_mem_filter hr)
      obtain ⟨_, hts, _, _⟩ := convertRow_ok hro
      rw [hts]
      exact hdate

/-- C10 (witness): the one-fact store answers the bounded query with an
undated fact, which passes the cutoff predicate. -/
theorem hidden_epoch_cutoff_witness :
    relationshipsEndpoint [] snapJE (QueryParams.mk none none true) = Except.ok [outJE] ∧
    (∀ o ∈ [outJE], dateOk o.timestamp = true) :=
  ⟨by
    simp +decide [relationshipsEndpoint, prunedRelationships, sortedRelationships,
      relationshipsWithDistance, filteredRelationships, allRelationships, sortByTimestamp,
      List.mergeSort, List.merge, snapJE, tJE, validateClusterIds, validateLimit,
      selectedTags, tagFilterPass, canonRow, resolve, dateOk, tsLe, strLeB, strLtB,
      MAX_DB_LIMIT, bfsDistances, buildAdjacency, ensureKey, addNeighbor, bfsLoop,
      epsteinName, jsMin, distLe, mapE, convertRow, parseTags, outJE],
    hidden_epoch_cutoff.2.1 [] snapJE (QueryParams.mk none none true) [outJE] (by
      simp +decide [relationshipsEndpoint, prunedRelationships, sortedRelationships,
        relationshipsWithDistance, filteredRelationships, allRelationships, sortByTimestamp,
        List.mergeSort, List.merge, snapJE, tJE, validateClusterIds, validateLimit,
        selectedTags, tagFilterPass, canonRow, resolve, dateOk, tsLe, strLeB, strLtB,
        MAX_DB_LIMIT, bfsDistances, buildAdjacency, ensureKey, addNeighbor, bfsLoop,
        epsteinName, jsMin, distLe, mapE, convertRow, parseTags, outJE])⟩

/-! ### C8 -/

/-- A fact whose tag payload does not parse. -/
def tBad : Triple :=
  { id := 5, doc_id := "d5", timestamp := none, actor := "G", action := "met",
    target := "H", location := none, triple_tags := some TagPayload.malformed }

/-- A one-fact store holding only the unparseable fact. -/
def snapBad : Snapshot := { triples := [tBad], aliases := [] }

/-- C8 (counterexample): with no cluster filter selected, the single
unparseable fact passes the filter stage, reaches the unprotected
`JSON.parse` of the response mapping, and the whole query errors out instead
of returning a result set. -/
theorem unfiltered_bad_payload_aborts :
    relationshipsEndpoint [] snapBad (QueryParams.mk none none true) =
      Except.error "An internal error occurred" := by
  simp +decide [relationshipsEndpoint, prunedRelationships, sortedRelationships,
    relationshipsWithDistance, filteredRelationships, allRelationships, sortByTimestamp,
    List.mergeSort, List.merge, snapBad, tBad, validateClusterIds, validateLimit,
    selectedTags, tagFilterPass, canonRow, resolve, dateOk, tsLe, strLeB, strLtB,
    MAX_DB_LIMIT, bfsDistances, buildAdjacency, ensureKey, addNeighbor, bfsLoop,
    epsteinName, jsMin, distLe, mapE, convertRow, parseTags]

/-- C8 (amended): only when at least one cluster tag is selected is a fact
with an unparseable tag payload recovered by being treated as filtered out; in
that case no unparseable fact survives the filter and the query returns a
result set for the remaining facts.  (With no cluster filter selected, a
surviving unparseable fact instead aborts the whole query.) -/
theorem cluster_filter_recovers_bad_payload (tagClusters : List TagCluster)
    (snap : Snapshot) (q : QueryParams)
    (h : selectedTags tagClusters (validateClusterIds q.clusters) ≠ []) :
    (∀ r ∈ filteredRelationships tagClusters snap (validateClusterIds q.clusters),
      r.triple_tags ≠ some TagPayload.malformed) ∧
    ∃ m, relationshipsEndpoint tagClusters snap q = Except.ok m := by
  have hempty : (selectedTags tagClusters (validateClusterIds q.clusters)).isEmpty = false := by
    cases hsel : selectedTags tagClusters (validateClusterIds q.clusters) with
    | nil => exact absurd hsel h
    | cons a l => rfl
  have hfilter : ∀ r ∈ filteredRelationships tagClusters snap (validateClusterIds q.clusters),
      r.triple_tags ≠ some TagPayload.malformed := by
    intro r hr hbad
    have hp := (List.mem_filter.1 hr).2
    rw [tagFilterPass, hempty, hbad] at hp
    simp [parseTags] at hp
  refine ⟨hfilter, ?_⟩
  apply mapE_ok_of_forall
  intro r hr
  rcases List.mem_map.1 hr with ⟨p, hp, rfl⟩
  have hmem : p.1 ∈ filteredRelationships tagClusters snap (validateClusterIds q.clusters) :=
    (mem_withDistance (mem_pruned hp)).1
  cases htt : p.1.triple_tags with
  | none => simp [convertRow, htt]
  | some pay =>
    cases pay with
    | arr ts => simp [convertRow, htt, parseTags]
    | malformed => exact absurd htt (hfilter p.1 hmem)

/-- The only cluster of the witness cluster table. -/
def clusterT1 : TagCluster := { id := 0, tags := ["t1"] }

/-- A fact carrying the tag of `clusterT1`. -/
def tGood : Triple :=
  { id := 6, doc_id := "d6", timestamp := none, actor := "I", action := "met",
    target := "J", location := none, triple_tags := some (TagPayload.arr ["t1"]) }

/-- A store mixing a parseable and an unparseable fact. -/
def snapMix : Snapshot := { triples := [tGood, tBad], aliases := [] }

/-- A query selecting cluster 0. -/
def qCluster : QueryParams :=
  { limit := none, clusters := some [some 0], includeUndated := true }

/-- C8 (witness): with cluster 0 selected over the mixed store, the
unparseable fact is filtered out and the query returns a result set. -/
theorem cluster_filter_recovers_bad_payload_witness :
    selectedTags [clusterT1] (validateClusterIds qCluster.clusters) ≠ [] ∧
    ((∀ r ∈ filteredRelationships [clusterT1] snapMix (validateClusterIds qCluster.clusters),
      r.triple_tags ≠ some TagPayload.malformed) ∧
    ∃ m, relationshipsEndpoint [clusterT1] snapMix qCluster = Except.ok m) :=
  ⟨by decide, cluster_filter_recovers_bad_payload [clusterT1] snapMix qCluster (by decide)⟩

/-! ### C2 -/

/-- A tagged fact incident to the principal. -/
def tJEtag : Triple :=
  { id := 1, doc_id := "d1", timestamp := none, actor := "Jeffrey Epstein",
    action := "met", target := "A", location := none,
    triple_tags := some (TagPayload.arr ["t1"]) }

/-- An untagged fact (fails the cluster filter when one is selected). -/
def tNoTags : Triple :=
  { id := 2, doc_id := "d2", timestamp := none, actor := "A", action := "met",
    target := "B", location := none, triple_tags := none }

/-- A tagged fact disconnected from the principal (pruned at limit 1). -/
def tFarTag : Triple :=
  { id := 3, doc_id := "d3", timestamp := none, actor := "C", action := "met",
    target := "D", location := none, triple_tags := some (TagPayload.arr ["t1"]) }

/-- One-fact store. -/
def snapP : Snapshot := { triples := [tJEtag], aliases := [] }

/-- `snapP` plus a fact removed by the cluster filter. -/
def snapQ : Snapshot := { triples := [tJEtag, tNoTags], aliases := [] }

/-- `snapP` plus a fact removed only by the truncation. -/
def snapR : Snapshot := { triples := [tJEtag, tFarTag], aliases := [] }

/-- A query selecting cluster 0 with limit 1. -/
def qCl1 : QueryParams :=
  { limit := some 1, clusters := some [some 0], includeUndated := true }

/-- C2: the `/api/relationships` response is only the serialized fact array
and reports neither count: stores differing in the pre-filter count (and
stores differing in the post-filter count) produce identical responses, so
neither count is recoverable from a response.  The claimed inequality does
hold between the internal stage lengths: result length ≤ post-filter count ≤
pre-filter count. -/
theorem relationships_response_carries_no_counts :
    (relationshipsEndpoint [clusterT1] snapP qCl1 =
        relationshipsEndpoint [clusterT1] snapQ qCl1 ∧
      countBeforeFilter snapP ≠ countBeforeFilter snapQ) ∧
    (relationshipsEndpoint [clusterT1] snapP qCl1 =
        relationshipsEndpoint [clusterT1] snapR qCl1 ∧
      countBeforeTruncation [clusterT1] snapP (validateClusterIds qCl1.clusters) ≠
        countBeforeTruncation [clusterT1] snapR (validateClusterIds qCl1.clusters)) ∧
    (∀ (tc : List TagCluster) (snap : Snapshot) (cl : List Int) (lim : Nat),
      (prunedRelationships tc snap cl lim).length ≤ countBeforeTruncation tc snap cl ∧
      countBeforeTruncation tc snap cl ≤ countBeforeFilter snap) := by
  refine ⟨⟨?_, ?_⟩, ⟨?_, ?_⟩, ?_⟩
  · simp +decide [relationshipsEndpoint, prunedRelationships, sortedRelationships,
      relationshipsWithDistance, filteredRelationships, allRelationships, sortByTimestamp,
      List.mergeSort, List.merge, snapP, snapQ, tJEtag, tNoTags, qCl1, clusterT1,
      validateClusterIds, validateLimit, selectedTags, tagFilterPass, canonRow, resolve,
      dateOk, tsLe, strLeB, strLtB, MAX_DB_LIMIT, bfsDistances, buildAdjacency, ensureKey,
      addNeighbor, bfsLoop, epsteinName, jsMin, distLe, mapE, convertRow, parseTags]
  · simp +decide [countBeforeFilter, allRelationships, sortByTimestamp, List.mergeSort,
      List.merge, snapP, snapQ, tJEtag, tNoTags, canonRow, resolve, dateOk, tsLe, strLeB,
      strLtB, MAX_DB_LIMIT]
  · simp +decide [relationshipsEndpoint, prunedRelationships, sortedRelationships,
      relationshipsWithDistance, filteredRelationships, allRelationships, sortByTimestamp,
      List.mergeSort, List.merge, snapP, snapR, tJEtag, tFarTag, qCl1, clusterT1,
      validateClusterIds, validateLimit, selectedTags, tagFilterPass, canonRow, resolve,
      dateOk, tsLe, strLeB, strLtB, MAX_DB_LIMIT, bfsDistances, buildAdjacency, ensureKey,
      addNeighbor, bfsLoop, epsteinName, jsMin, distLe, mapE, convertRow, parseTags]
  · simp +decide [countBeforeTruncation, filteredRelationships, allRelationships,
      sortByTimestamp, List.mergeSort, List.merge, snapP, snapR, tJEtag, tFarTag, qCl1,
      clusterT1, validateClusterIds, selectedTags, tagFilterPass, canonRow, resolve,
      dateOk, tsLe, strLeB, strLtB, MAX_DB_LIMIT]
  · intro tc snap cl lim
    constructor
    · have h1 : (sortedRelationships tc snap cl).length = countBeforeTruncation tc snap cl := by
        unfold sortedRelationships countBeforeTruncation
        rw [(List.mergeSort_perm _ _).length_eq]
        simp [relationshipsWithDistance]
      rw [← h1]
      unfold prunedRelationships
      rw [List.length_take]
      exact min_le_right _ _
    · unfold countBeforeTruncation countBeforeFilter filteredRelationships
      exact List.length_filter_le _ _

/-! ### C4 -/

/-- C4 (amended): the actor-scoped query expands the requested name to the
union set the code computes — original names whose canonical is the name, the
canonical of the name when the name is an alias, and the name itself — and its
filtered stage holds exactly the canonicalized facts passing the timestamp
cutoff and the cluster filter whose raw actor or raw target is in that set.
(Facts keyed under a sibling alias of the same canonical name are not
included when querying by an alias.) -/
theorem actor_query_union_membership (tagClusters : List TagCluster) (snap : Snapshot)
    (name : String) (clusterIds : List Int) (r : Row) :
    r ∈ actorFilteredRelationships tagClusters snap name clusterIds ↔
      ((∃ f ∈ snap.triples,
        (f.actor ∈ aliasUnionNames snap.aliases name ∨
          f.target ∈ aliasUnionNames snap.aliases name) ∧
        dateOk f.timestamp = true ∧ canonRow snap.aliases f = r) ∧
      tagFilterPass (selectedTags tagClusters clusterIds) r = true) := by
  unfold actorFilteredRelationships actorBaseRows sortByTimestamp
  rw [List.mem_filter, List.mem_mergeSort, List.mem_map]
  constructor
  · rintro ⟨⟨f, hf, rfl⟩, hpass⟩
    have hm := List.mem_filter.1 hf
    have hcond := hm.2
    simp only [Bool.and_eq_true, Bool.or_eq_true, decide_eq_true_eq] at hcond
    exact ⟨⟨f, hm.1, hcond.1, hcond.2, rfl⟩, hpass⟩
  · rintro ⟨⟨f, hf, hnames, hdate, rfl⟩, hpass⟩
    refine ⟨⟨f, List.mem_filter.2 ⟨hf, ?_⟩, rfl⟩, hpass⟩
    simp only [Bool.and_eq_true, Bool.or_eq_true, decide_eq_true_eq]
    exact ⟨hnames, hdate⟩

/-- An alias table where canonical "JE" has the two aliases "JeffE" and
"Jeffrey" besides its self-reference row. -/
def siblingAliases : AliasTable := [("JeffE", "JE"), ("Jeffrey", "JE"), ("JE", "JE")]

/-- A fact keyed under the sibling alias "Jeffrey". -/
def tSibling : Triple :=
  { id := 7, doc_id := "d7", timestamp := none, actor := "Jeffrey", action := "met",
    target := "X", location := none, triple_tags := none }

/-- A one-fact store under the sibling-alias registry. -/
def snapSibling : Snapshot := { triples := [tSibling], aliases := siblingAliases }

/-- C4 (counterexample): "Jeffrey" is in the alias-equivalence set of "JeffE"
(both resolve to "JE"), the store's only fact is keyed under "Jeffrey" and
passes the cutoff, there is no cluster filter — yet the actor-scoped query
for "JeffE" returns the empty list, missing the sibling-alias fact the claim
requires. -/
theorem actor_query_misses_sibling_alias :
    "Jeffrey" ∈ aliasEquivSet siblingAliases "JeffE" ∧
    tSibling.actor = "Jeffrey" ∧
    dateOk tSibling.timestamp = true ∧
    actorEndpoint [] snapSibling "JeffE" (QueryParams.mk none none true) =
      Except.ok [] := by
  refine ⟨by decide, rfl, rfl, ?_⟩
  simp +decide [actorEndpoint, actorFilteredRelationships, actorBaseRows, sortByTimestamp,
    List.mergeSort, List.merge, aliasUnionNames, snapSibling, siblingAliases, tSibling,
    canonRow, resolve, dateOk, tsLe, strLeB, strLtB, selectedTags, validateClusterIds,
    tagFilterPass, mapE, convertRow, parseTags]

end DocNet